import Mathlib

set_option maxRecDepth 16384

/-
Verification of the mikro-radius-dashboard state-management core.

This file shallowly embeds the domain logic of the repository's server
handlers (subscriber accounts, bandwidth profiles, devices, activity logs)
and proves properties of the embedded functions.

Modelling conventions:
* The relational store is a record of lists (one per table) plus serial
  counters; `defaultNow()` timestamps and `new Date()` are an explicit
  integer parameter `now`.
* JavaScript strings are Lean `String`; `storedHash.split(':')` is
  modelled by `splitColon`, matching the JS semantics that the result is
  never empty and a missing second component behaves as `undefined`
  (compared unequal to every string).
* `crypto.pbkdf2Sync` and `crypto.createHash('md5')` are external
  primitives. They are modelled as concrete injective digest functions
  whose output never contains the char ':' (real outputs are hex), so the
  idealised collision-freeness the spec relies on is a theorem of the
  model. The random salt of `randomBytes(32).toString('hex')` is an
  explicit hex-string argument.
* Numeric wire values on the price path are modelled as exact decimals
  `Dec` (integer mantissa and scale); `Number.prototype.toString` and
  `parseFloat` are modelled by exact decimal rendering and parsing, which
  agrees with JavaScript on the scale-conforming values the handlers
  store in the `numeric(10,2)` column.
-/

namespace MikroRadius

/-! ## JS string splitting: `storedHash.split(':')` -/

/-- Splits a character list at every ':' exactly like JS `String.split(':')`:
the result always has at least one (possibly empty) chunk. -/
def splitChunks : List Char → List (List Char)
  | [] => [[]]
  | c :: rest =>
    if c == ':' then [] :: splitChunks rest
    else
      match splitChunks rest with
      | [] => [[c]]
      | h :: t => (c :: h) :: t

/-- JS `s.split(':')` on strings. -/
def splitColon (s : String) : List String :=
  (splitChunks s.data).map String.mk

/-! ## Model of the external digest primitives -/

/-- Unary encoding of one character, terminated by 'g'; the building block
of the injective digest model. -/
def encChar (c : Char) : List Char :=
  List.replicate c.toNat '1' ++ ['g']

/-- Injective encoding of a character list; output chars are only '1' and 'g'. -/
def encStr (l : List Char) : List Char :=
  l.flatMap encChar

/-- Model of `pbkdf2Sync(password, salt, 10000, 64, 'sha512').toString('hex')`:
a deterministic digest of the (password, salt) pair, injective in the pair,
whose output never contains ':' (the real output is lowercase hex). -/
def pbkdf2 (password salt : String) : String :=
  String.mk (encStr password.data ++ 'x' :: encStr salt.data)

/-- Model of `createHash('md5').update(s).digest('hex')` used by
`updateRadiusUser`: a deterministic unsalted digest whose output never
contains ':' (the real output is 32 lowercase hex chars). -/
def md5Hex (s : String) : String :=
  String.mk (encStr s.data)

/-! ## The credential hasher of `create_radius_user.ts` -/

/-- `hashPassword` from the source: generates a hex salt (here an explicit
argument, standing for `randomBytes(32).toString('hex')`), computes the
pbkdf2 digest, and stores `salt + ":" + hash`. -/
def hashPassword (password : String) (salt : String) : String :=
  salt ++ ":" ++ pbkdf2 password salt

/-- `verifyPassword` from the source: splits the stored hash at ':',
recomputes the digest with the recovered salt, and compares. When the
stored hash has no ':', the JS `hash` component is `undefined` and the
`===` comparison with a string is `false`. -/
def verifyPassword (password storedHash : String) : Bool :=
  match splitColon storedHash with
  | [] => false
  | salt :: rest =>
    match rest with
    | [] => false
    | h :: _ => h == pbkdf2 password salt

/-- Recognises the output alphabet of `randomBytes(n).toString('hex')`:
a decimal digit or one of the lowercase letters a-f. -/
def isHexChar (c : Char) : Bool :=
  ('0' ≤ c && c ≤ '9') || ('a' ≤ c && c ≤ 'f')

/-- A string consisting only of lowercase hex characters, as produced by
`randomBytes(32).toString('hex')`. -/
def isHexString (s : String) : Bool :=
  s.data.all isHexChar

/-! ## Exact decimals: the model of JS numbers on the price path -/

/-- An exact decimal: the value is `num / 10 ^ scale`. JS numbers flowing
through the `numeric(10,2)` price column are modelled by these. -/
structure Dec where
  num : Int
  scale : Nat
deriving DecidableEq, Repr

/-- Strips trailing zero decimals from a mantissa/scale pair. -/
def canonAux (n : Int) : Nat → Dec
  | 0 => ⟨n, 0⟩
  | s + 1 => if n % 10 == 0 then canonAux (n / 10) s else ⟨n, s + 1⟩

/-- Canonical form: strip trailing zero decimals, so distinct
representations of the same JS number coincide. -/
def Dec.canon (d : Dec) : Dec :=
  canonAux d.num d.scale

/-- Left-pads a numeral string with '0' to the requested width. -/
def padZeros (k : Nat) (s : String) : String :=
  String.mk (List.replicate (k - s.length) '0') ++ s

/-- Model of `Number.prototype.toString` on the exact decimals produced by
the handlers: the shortest decimal numeral (canonical form, no trailing
zeros), matching JS output on these values. -/
def jsNumToString (d : Dec) : String :=
  let c := d.canon
  if c.scale == 0 then toString c.num
  else
    let a := c.num.natAbs
    let p := 10 ^ c.scale
    (if c.num < 0 then "-" else "") ++ toString (a / p) ++ "." ++ padZeros c.scale (toString (a % p))

/-- Numeric value of a digit list (most significant first). -/
def digitsVal (l : List Char) : Nat :=
  l.foldl (fun a c => a * 10 + (c.toNat - 48)) 0

/-- Model of `parseFloat` on the decimal numerals the store produces:
exact decimal parsing (optional leading '-', digits, optional '.' and
fraction digits), returned in canonical form. -/
def parseDec (s : String) : Dec :=
  let p := match s.data with
    | '-' :: r => (true, r)
    | r => (false, r)
  let ip := p.2.takeWhile (fun c => c != '.')
  let fp := (p.2.dropWhile (fun c => c != '.')).drop 1
  let n : Nat := digitsVal ip * 10 ^ fp.length + digitsVal fp
  Dec.canon ⟨if p.1 then -(n : Int) else (n : Int), fp.length⟩

/-- Value of a decimal in hundredths, rounding half away from zero:
what a Postgres `numeric(10, 2)` column retains of an inserted value. -/
def Dec.toCents (d : Dec) : Int :=
  if d.scale ≤ 2 then d.num * (10 : Int) ^ (2 - d.scale)
  else
    let p := 10 ^ (d.scale - 2)
    let q := ((d.num.natAbs + p / 2) / p : Nat)
    if d.num < 0 then -(q : Int) else (q : Int)

/-- Renders a cent count with exactly two decimals, the way the Postgres
driver returns a `numeric(10,2)` value as a string. -/
def renderScale2 (cents : Int) : String :=
  (if cents < 0 then "-" else "") ++ toString (cents.natAbs / 100) ++ "." ++
    padZeros 2 (toString (cents.natAbs % 100))

/-- Round trip of a numeral string through the `numeric(10, 2)` price
column: parse, quantise to hundredths, render canonically at scale 2. -/
def pgNumeric2 (s : String) : String :=
  renderScale2 (parseDec s).toCents

/-! ## Schema enums (`db/schema.ts`) -/

/-- `device_status` enum. -/
inductive DeviceStatus
  | online
  | offline
  | error
deriving DecidableEq, Repr

/-- `radius_user_status` enum. -/
inductive RadiusUserStatus
  | active
  | suspended
  | expired
deriving DecidableEq, Repr

/-- `activity_action` enum. -/
inductive ActivityAction
  | login
  | logout
  | session_start
  | session_end
  | account_created
  | account_updated
  | account_suspended
deriving DecidableEq, Repr

/-! ## Table rows (`$inferSelect` shapes; `numeric` columns hold strings) -/

/-- A row of `mikrotik_devices`. -/
structure MikrotikDeviceRow where
  id : Int
  name : String
  ip_address : String
  username : String
  password : String
  port : Int
  status : DeviceStatus
  created_at : Int
  updated_at : Int
deriving DecidableEq, Repr

/-- A row of `radius_profiles`; `price` is the string the driver returns
for the `numeric(10,2)` column, or null. -/
structure RadiusProfileRow where
  id : Int
  name : String
  upload_speed : Int
  download_speed : Int
  session_timeout : Option Int
  idle_timeout : Option Int
  monthly_quota : Option Int
  price : Option String
  description : Option String
  created_at : Int
deriving DecidableEq, Repr

/-- A row of `radius_users`. -/
structure RadiusUserRow where
  id : Int
  username : String
  password : String
  profile_id : Int
  full_name : Option String
  email : Option String
  phone : Option String
  address : Option String
  status : RadiusUserStatus
  created_at : Int
  expires_at : Option Int
deriving DecidableEq, Repr

/-- A row of `activity_logs`; the byte counters are `numeric(20,0)`
columns and hold strings. -/
structure ActivityLogRow where
  id : Int
  user_id : Option Int
  username : String
  action : ActivityAction
  ip_address : Option String
  mac_address : Option String
  bytes_in : Option String
  bytes_out : Option String
  session_duration : Option Int
  created_at : Int
deriving DecidableEq, Repr

/-! ## Wire shapes (zod schemas in `schema.ts`: numerics are numbers) -/

/-- The `radiusProfileSchema` wire shape: `price` is a number or null. -/
structure RadiusProfileWire where
  id : Int
  name : String
  upload_speed : Int
  download_speed : Int
  session_timeout : Option Int
  idle_timeout : Option Int
  monthly_quota : Option Int
  price : Option Dec
  description : Option String
  created_at : Int
deriving DecidableEq, Repr

/-- The `activityLogSchema` wire shape: byte counters are numbers or null. -/
structure ActivityLogWire where
  id : Int
  user_id : Option Int
  username : String
  action : ActivityAction
  ip_address : Option String
  mac_address : Option String
  bytes_in : Option Dec
  bytes_out : Option Dec
  session_duration : Option Int
  created_at : Int
deriving DecidableEq, Repr

/-! ## The store -/

/-- The relational store: one list per table touched by the embedded
handlers, plus the serial-id counters. -/
structure DB where
  mikrotikDevices : List MikrotikDeviceRow
  radiusProfiles : List RadiusProfileRow
  radiusUsers : List RadiusUserRow
  activityLogs : List ActivityLogRow
  nextDeviceId : Int
  nextProfileId : Int
  nextUserId : Int
  nextLogId : Int
deriving DecidableEq, Repr

/-! ## Domain errors: one constructor per `throw new Error(...)` site -/

/-- The errors thrown by the embedded handlers. -/
inductive DomainError
  | profileDoesNotExist (id : Int)
  | usernameExists (username : String)
  | radiusUserNotFound (id : Int)
  | profileNotFound (id : Int)
  | profileHasDependents (count : Nat)
  | deviceNotFoundUpdate (id : Int)
  | deviceNotFoundRefresh (id : Int)
deriving DecidableEq, Repr

/-- The exact message text of each throw site. -/
def DomainError.message : DomainError → String
  | .profileDoesNotExist id => "Profile with ID " ++ toString id ++ " does not exist"
  | .usernameExists username => "Username " ++ username ++ " already exists"
  | .radiusUserNotFound id => "Radius user with id " ++ toString id ++ " not found"
  | .profileNotFound id => "Radius profile with id " ++ toString id ++ " not found"
  | .profileHasDependents count =>
      "Cannot delete profile: " ++ toString count ++ " users are still using this profile"
  | .deviceNotFoundUpdate id => "Mikrotik device with id " ++ toString id ++ " not found"
  | .deviceNotFoundRefresh id => "Device with ID " ++ toString id ++ " not found"

/-! ## Input shapes (zod input schemas) -/

/-- `createRadiusUserInputSchema`. -/
structure CreateRadiusUserInput where
  username : String
  password : String
  profile_id : Int
  full_name : Option String := none
  email : Option String := none
  phone : Option String := none
  address : Option String := none
  expires_at : Option Int := none
deriving DecidableEq, Repr

/-- `updateRadiusUserInputSchema`: `none` means the field is absent from
the request; `some none` is an explicit null for a nullable field. -/
structure UpdateRadiusUserInput where
  id : Int
  password : Option String := none
  profile_id : Option Int := none
  full_name : Option (Option String) := none
  email : Option (Option String) := none
  phone : Option (Option String) := none
  address : Option (Option String) := none
  status : Option RadiusUserStatus := none
  expires_at : Option (Option Int) := none
deriving DecidableEq, Repr

/-- `createRadiusProfileInputSchema`. -/
structure CreateRadiusProfileInput where
  name : String
  upload_speed : Int
  download_speed : Int
  session_timeout : Option Int := none
  idle_timeout : Option Int := none
  monthly_quota : Option Int := none
  price : Option Dec := none
  description : Option String := none
deriving DecidableEq, Repr

/-- `updateRadiusProfileInputSchema`. -/
structure UpdateRadiusProfileInput where
  id : Int
  name : Option String := none
  upload_speed : Option Int := none
  download_speed : Option Int := none
  session_timeout : Option (Option Int) := none
  idle_timeout : Option (Option Int) := none
  monthly_quota : Option (Option Int) := none
  price : Option (Option Dec) := none
  description : Option (Option String) := none
deriving DecidableEq, Repr

/-- `updateMikrotikDeviceInputSchema` (no nullable fields). -/
structure UpdateMikrotikDeviceInput where
  id : Int
  name : Option String := none
  ip_address : Option String := none
  username : Option String := none
  password : Option String := none
  port : Option Int := none
deriving DecidableEq, Repr

/-- `activityLogFilterSchema`, before the handler applies its
`{ limit: 100, offset: 0, ...input }` defaults. -/
structure ActivityLogFilter where
  username : Option String := none
  action : Option ActivityAction := none
  start_date : Option Int := none
  end_date : Option Int := none
  limit : Option Nat := none
  offset : Option Nat := none
deriving DecidableEq, Repr

/-! ## Handlers

Each handler is a function of its input, the explicit `now` timestamp
where the source uses `new Date()` / `defaultNow()`, and the store. It
returns the store after the handler ran together with `Except` capturing
a thrown error or the response value; the throw sites of the source all
precede its writes, so an error leaves the store unchanged. -/

/-- `createRadiusUser` of `create_radius_user.ts`: profile existence
check, username uniqueness check, hash, insert (status comes from the
column default `active`; the insert omits it), then the
`account_created` activity log insert. The salt argument stands for the
`randomBytes(32).toString('hex')` call inside `hashPassword`. -/
def createRadiusUser (input : CreateRadiusUserInput) (salt : String) (now : Int) (db : DB) :
    DB × Except DomainError RadiusUserRow :=
  let profile := db.radiusProfiles.filter (fun p => p.id == input.profile_id)
  if profile.length == 0 then
    (db, .error (.profileDoesNotExist input.profile_id))
  else
    let existingUser := db.radiusUsers.filter (fun u => u.username == input.username)
    if existingUser.length > 0 then
      (db, .error (.usernameExists input.username))
    else
      let hashedPassword := hashPassword input.password salt
      let newUser : RadiusUserRow :=
        { id := db.nextUserId
          username := input.username
          password := hashedPassword
          profile_id := input.profile_id
          full_name := input.full_name
          email := input.email
          phone := input.phone
          address := input.address
          status := .active
          created_at := now
          expires_at := input.expires_at }
      let db1 : DB :=
        { db with radiusUsers := db.radiusUsers ++ [newUser], nextUserId := db.nextUserId + 1 }
      let logRow : ActivityLogRow :=
        { id := db1.nextLogId
          user_id := some newUser.id
          username := newUser.username
          action := .account_created
          ip_address := none
          mac_address := none
          bytes_in := none
          bytes_out := none
          session_duration := none
          created_at := now }
      let db2 : DB :=
        { db1 with activityLogs := db1.activityLogs ++ [logRow], nextLogId := db1.nextLogId + 1 }
      (db2, .ok newUser)

/-- `deleteRadiusUser` of `delete_radius_user.ts`: existence check, the
`account_updated` deletion log entry (the enum has no deletion action),
then the row delete. -/
def deleteRadiusUser (inputId : Int) (now : Int) (db : DB) : DB × Except DomainError Bool :=
  match db.radiusUsers.filter (fun u => u.id == inputId) with
  | [] => (db, .error (.radiusUserNotFound inputId))
  | userToDelete :: _ =>
    let logRow : ActivityLogRow :=
      { id := db.nextLogId
        user_id := some inputId
        username := userToDelete.username
        action := .account_updated
        ip_address := none
        mac_address := none
        bytes_in := none
        bytes_out := none
        session_duration := none
        created_at := now }
    let db1 : DB :=
      { db with activityLogs := db.activityLogs ++ [logRow], nextLogId := db.nextLogId + 1 }
    let db2 : DB :=
      { db1 with radiusUsers := db1.radiusUsers.filter (fun u => !(u.id == inputId)) }
    (db2, .ok true)

/-- `deleteRadiusProfile`: existence check, dependent-account guard with
the dependent count in the message, then the row delete. -/
def deleteRadiusProfile (inputId : Int) (db : DB) : DB × Except DomainError Bool :=
  let existingProfile := db.radiusProfiles.filter (fun p => p.id == inputId)
  if existingProfile.length == 0 then
    (db, .error (.profileNotFound inputId))
  else
    let dependentUsers := db.radiusUsers.filter (fun u => u.profile_id == inputId)
    if dependentUsers.length > 0 then
      (db, .error (.profileHasDependents dependentUsers.length))
    else
      ({ db with radiusProfiles := db.radiusProfiles.filter (fun p => !(p.id == inputId)) },
        .ok true)

/-- The `updateData` object of `updateRadiusUser` applied to a row: each
request field present (`!== undefined`) overwrites the column, with the
password run through the MD5 digest; absent fields are untouched. -/
def applyRadiusUserUpdate (input : UpdateRadiusUserInput) (u : RadiusUserRow) : RadiusUserRow :=
  { u with
    password := match input.password with
      | some p => md5Hex p
      | none => u.password
    profile_id := match input.profile_id with
      | some v => v
      | none => u.profile_id
    full_name := match input.full_name with
      | some v => v
      | none => u.full_name
    email := match input.email with
      | some v => v
      | none => u.email
    phone := match input.phone with
      | some v => v
      | none => u.phone
    address := match input.address with
      | some v => v
      | none => u.address
    status := match input.status with
      | some v => v
      | none => u.status
    expires_at := match input.expires_at with
      | some v => v
      | none => u.expires_at }

/-- `updateRadiusUser` of `update_radius_user.ts`: existence check,
profile check when a profile id is supplied, partial update, then the
`account_updated` log entry. The second match on the updated rows models
`result[0]` of the `returning()` call; its empty case cannot occur. -/
def updateRadiusUser (input : UpdateRadiusUserInput) (now : Int) (db : DB) :
    DB × Except DomainError RadiusUserRow :=
  match db.radiusUsers.filter (fun u => u.id == input.id) with
  | [] => (db, .error (.radiusUserNotFound input.id))
  | _ :: _ =>
    let profileMissing : Bool := match input.profile_id with
      | some pid => (db.radiusProfiles.filter (fun p => p.id == pid)).length == 0
      | none => false
    match input.profile_id, profileMissing with
    | some pid, true => (db, .error (.profileNotFound pid))
    | _, _ =>
      let newUsers : List RadiusUserRow :=
        db.radiusUsers.map (fun u => if u.id == input.id then applyRadiusUserUpdate input u else u)
      match newUsers.filter (fun u => u.id == input.id) with
      | [] => (db, .error (.radiusUserNotFound input.id))
      | updatedUser :: _ =>
        let logRow : ActivityLogRow :=
          { id := db.nextLogId
            user_id := some updatedUser.id
            username := updatedUser.username
            action := .account_updated
            ip_address := none
            mac_address := none
            bytes_in := none
            bytes_out := none
            session_duration := none
            created_at := now }
        ({ db with
            radiusUsers := newUsers
            activityLogs := db.activityLogs ++ [logRow]
            nextLogId := db.nextLogId + 1 },
          .ok updatedUser)

/-- Converts a profile row to the wire shape:
`price: profile.price ? parseFloat(profile.price) : null` (an empty
string is falsy in JS and also maps to null). -/
def profileRowToWire (p : RadiusProfileRow) : RadiusProfileWire :=
  { id := p.id
    name := p.name
    upload_speed := p.upload_speed
    download_speed := p.download_speed
    session_timeout := p.session_timeout
    idle_timeout := p.idle_timeout
    monthly_quota := p.monthly_quota
    price := match p.price with
      | some s => if s == "" then none else some (parseDec s)
      | none => none
    description := p.description
    created_at := p.created_at }

/-- `createRadiusProfile` of `create_radius_profile.ts`: the insert
stores `input.price ? input.price.toString() : null` — a price of 0 is
falsy in JS and is stored as null — and the response converts the stored
string back to a number. -/
def createRadiusProfile (input : CreateRadiusProfileInput) (now : Int) (db : DB) :
    DB × RadiusProfileWire :=
  let row : RadiusProfileRow :=
    { id := db.nextProfileId
      name := input.name
      upload_speed := input.upload_speed
      download_speed := input.download_speed
      session_timeout := input.session_timeout
      idle_timeout := input.idle_timeout
      monthly_quota := input.monthly_quota
      price := match input.price with
        | some q => if q.num == 0 then none else some (pgNumeric2 (jsNumToString q))
        | none => none
      description := input.description
      created_at := now }
  let db1 : DB :=
    { db with radiusProfiles := db.radiusProfiles ++ [row], nextProfileId := db.nextProfileId + 1 }
  (db1, profileRowToWire row)

/-- The `updateData` object of `updateRadiusProfile` applied to a row;
`price` present and non-null is stored via `input.price.toString()`
through the `numeric(10,2)` column, present and null clears the column. -/
def applyRadiusProfileUpdate (input : UpdateRadiusProfileInput) (p : RadiusProfileRow) :
    RadiusProfileRow :=
  { p with
    name := match input.name with
      | some v => v
      | none => p.name
    upload_speed := match input.upload_speed with
      | some v => v
      | none => p.upload_speed
    download_speed := match input.download_speed with
      | some v => v
      | none => p.download_speed
    session_timeout := match input.session_timeout with
      | some v => v
      | none => p.session_timeout
    idle_timeout := match input.idle_timeout with
      | some v => v
      | none => p.idle_timeout
    monthly_quota := match input.monthly_quota with
      | some v => v
      | none => p.monthly_quota
    price := match input.price with
      | some (some q) => some (pgNumeric2 (jsNumToString q))
      | some none => none
      | none => p.price
    description := match input.description with
      | some v => v
      | none => p.description }

/-- `updateRadiusProfile` (second document of `part_002`): existence
check, partial update of only the provided fields, and the response
converts the stored price string back to a number. No activity log and
no timestamp refresh. -/
def updateRadiusProfile (input : UpdateRadiusProfileInput) (db : DB) :
    DB × Except DomainError RadiusProfileWire :=
  match db.radiusProfiles.filter (fun p => p.id == input.id) with
  | [] => (db, .error (.profileNotFound input.id))
  | _ :: _ =>
    let newProfiles :=
      db.radiusProfiles.map
        (fun p => if p.id == input.id then applyRadiusProfileUpdate input p else p)
    match newProfiles.filter (fun p => p.id == input.id) with
    | [] => (db, .error (.profileNotFound input.id))
    | updated :: _ =>
      ({ db with radiusProfiles := newProfiles }, .ok (profileRowToWire updated))

/-- `getRadiusProfiles` of `get_radius_users.ts` (second document):
all profiles ordered by creation time descending, prices converted. -/
def profileDescOrder (a b : RadiusProfileRow) : Prop :=
  b.created_at ≤ a.created_at

instance : DecidableRel profileDescOrder :=
  fun a b => inferInstanceAs (Decidable (b.created_at ≤ a.created_at))

instance : IsTotal RadiusProfileRow profileDescOrder :=
  ⟨fun a b => le_total b.created_at a.created_at⟩

instance : IsTrans RadiusProfileRow profileDescOrder :=
  ⟨fun _ _ _ h1 h2 => le_trans h2 h1⟩

/-- The `orderBy(desc(created_at))` scan of the profiles table. -/
def getRadiusProfiles (db : DB) : List RadiusProfileWire :=
  (db.radiusProfiles.insertionSort profileDescOrder).map profileRowToWire

/-- The `updateData` object of `updateMikrotikDevice` applied to a row:
`updated_at` is always refreshed; the five optional request fields
overwrite only when present; status and `created_at` are untouched. -/
def applyMikrotikDeviceUpdate (input : UpdateMikrotikDeviceInput) (now : Int)
    (d : MikrotikDeviceRow) : MikrotikDeviceRow :=
  { d with
    updated_at := now
    name := match input.name with
      | some v => v
      | none => d.name
    ip_address := match input.ip_address with
      | some v => v
      | none => d.ip_address
    username := match input.username with
      | some v => v
      | none => d.username
    password := match input.password with
      | some v => v
      | none => d.password
    port := match input.port with
      | some v => v
      | none => d.port }

/-- `updateMikrotikDevice` of `part_004`: existence check, then the
partial update with a refreshed `updated_at`. -/
def updateMikrotikDevice (input : UpdateMikrotikDeviceInput) (now : Int) (db : DB) :
    DB × Except DomainError MikrotikDeviceRow :=
  match db.mikrotikDevices.filter (fun d => d.id == input.id) with
  | [] => (db, .error (.deviceNotFoundUpdate input.id))
  | _ :: _ =>
    let newDevices :=
      db.mikrotikDevices.map
        (fun d => if d.id == input.id then applyMikrotikDeviceUpdate input now d else d)
    match newDevices.filter (fun d => d.id == input.id) with
    | [] => (db, .error (.deviceNotFoundUpdate input.id))
    | updated :: _ =>
      ({ db with mikrotikDevices := newDevices }, .ok updated)

/-- `simulateConnectionCheck` of the real `refreshDeviceStatus` (second
document of `get_interface_traffic.ts`): the probe outcome is a function
of the address; one address is unreachable, one throws. -/
def simulateConnectionCheck (ipAddress : String) (_port : Int) : Except String Bool :=
  if ipAddress == "192.168.1.999" then .ok false
  else if ipAddress == "192.168.1.500" then .error "Connection timeout"
  else .ok true

/-- The status the probe outcome maps to:
`isReachable ? 'online' : 'offline'`, and `catch` sets `'error'`. -/
def probeStatus (r : Except String Bool) : DeviceStatus :=
  match r with
  | .ok true => .online
  | .ok false => .offline
  | .error _ => .error

/-- The real `refreshDeviceStatus`: existence check, probe with the
error outcome captured as the `error` status rather than propagated,
then persist the new status with a refreshed `updated_at` and return
the updated row. -/
def refreshDeviceStatus (deviceId : Int) (now : Int) (db : DB) :
    DB × Except DomainError MikrotikDeviceRow :=
  match db.mikrotikDevices.filter (fun d => d.id == deviceId) with
  | [] => (db, .error (.deviceNotFoundRefresh deviceId))
  | device :: _ =>
    let newStatus := probeStatus (simulateConnectionCheck device.ip_address device.port)
    let newDevices :=
      db.mikrotikDevices.map
        (fun d => if d.id == deviceId then { d with status := newStatus, updated_at := now } else d)
    match newDevices.filter (fun d => d.id == deviceId) with
    | [] => (db, .error (.deviceNotFoundRefresh deviceId))
    | updated :: _ =>
      ({ db with mikrotikDevices := newDevices }, .ok updated)

/-- The drizzle `conditions` array of `getActivityLogs` collapsed to one
predicate: present filters are AND-combined; `if (filter.username)`
skips an empty string (falsy in JS); the date bounds are `gte`/`lte`. -/
def logMatches (f : ActivityLogFilter) (log : ActivityLogRow) : Bool :=
  (match f.username with
    | some u => if u == "" then true else log.username == u
    | none => true)
  && (match f.action with
    | some a => log.action == a
    | none => true)
  && (match f.start_date with
    | some t => decide (t ≤ log.created_at)
    | none => true)
  && (match f.end_date with
    | some t => decide (log.created_at ≤ t)
    | none => true)

/-- Descending creation-time order of activity logs. -/
def logDescOrder (a b : ActivityLogRow) : Prop :=
  b.created_at ≤ a.created_at

instance : DecidableRel logDescOrder :=
  fun a b => inferInstanceAs (Decidable (b.created_at ≤ a.created_at))

instance : IsTotal ActivityLogRow logDescOrder :=
  ⟨fun a b => le_total b.created_at a.created_at⟩

instance : IsTrans ActivityLogRow logDescOrder :=
  ⟨fun _ _ _ h1 h2 => le_trans h2 h1⟩

/-- Converts a log row to the wire shape:
`bytes_in: log.bytes_in ? parseFloat(log.bytes_in) : null`, same for
`bytes_out`. -/
def logRowToWire (log : ActivityLogRow) : ActivityLogWire :=
  { id := log.id
    user_id := log.user_id
    username := log.username
    action := log.action
    ip_address := log.ip_address
    mac_address := log.mac_address
    bytes_in := match log.bytes_in with
      | some s => if s == "" then none else some (parseDec s)
      | none => none
    bytes_out := match log.bytes_out with
      | some s => if s == "" then none else some (parseDec s)
      | none => none
    session_duration := log.session_duration
    created_at := log.created_at }

/-- `getActivityLogs` of `get_activity_logs.ts`: pagination defaults
`{ limit: 100, offset: 0, ...input }`, the AND-combined filter, the
descending order on creation time, then `LIMIT`/`OFFSET` (SQL applies
the offset before the limit). -/
def getActivityLogs (f : ActivityLogFilter) (db : DB) : List ActivityLogWire :=
  let lim := f.limit.getD 100
  let off := f.offset.getD 0
  ((((db.activityLogs.filter (logMatches f)).insertionSort logDescOrder).drop off).take
    lim).map logRowToWire

/-- Equality of handler results is decidable (used to evaluate the
handlers on concrete stores). -/
instance {ε α : Type} [DecidableEq ε] [DecidableEq α] : DecidableEq (Except ε α) :=
  fun x y =>
    match x, y with
    | .ok a, .ok b =>
      if h : a = b then isTrue (by rw [h]) else isFalse (fun he => h (Except.ok.inj he))
    | .ok _, .error _ => isFalse (fun he => Except.noConfusion he)
    | .error _, .ok _ => isFalse (fun he => Except.noConfusion he)
    | .error e, .error f =>
      if h : e = f then isTrue (by rw [h]) else isFalse (fun he => h (Except.error.inj he))

/-! ## Concrete sample data for the corner-case theorems -/

/-- A sample bandwidth profile row with id 1. -/
def sampleProfile : RadiusProfileRow :=
  { id := 1, name := "P", upload_speed := 1024, download_speed := 2048,
    session_timeout := none, idle_timeout := none, monthly_quota := none,
    price := none, description := none, created_at := 0 }

/-- A sample subscriber account with id 1, username "u", and a stored
hash produced by the create path. -/
def sampleUser : RadiusUserRow :=
  { id := 1, username := "u", password := hashPassword "old" "ab",
    profile_id := 1, full_name := none, email := none, phone := none,
    address := none, status := .active, created_at := 0, expires_at := none }

/-- A sample store holding one profile and one account. -/
def sampleDb : DB :=
  { mikrotikDevices := [], radiusProfiles := [sampleProfile],
    radiusUsers := [sampleUser], activityLogs := [],
    nextDeviceId := 1, nextProfileId := 2, nextUserId := 2, nextLogId := 1 }

/-- A sample activity log row with username "a". -/
def sampleLog : ActivityLogRow :=
  { id := 1, user_id := none, username := "a", action := .login,
    ip_address := none, mac_address := none, bytes_in := none,
    bytes_out := none, session_duration := none, created_at := 3 }

/-- A sample store holding one activity log entry. -/
def sampleLogDb : DB :=
  { sampleDb with activityLogs := [sampleLog] }

/-- A sample device whose address makes the simulated probe throw. -/
def sampleDevice : MikrotikDeviceRow :=
  { id := 1, name := "D", ip_address := "192.168.1.500", username := "admin",
    password := "pw", port := 8728, status := .offline, created_at := 0, updated_at := 0 }

/-- A sample store holding one device. -/
def sampleDeviceDb : DB :=
  { sampleDb with mikrotikDevices := [sampleDevice], nextDeviceId := 2 }

/-- The sample store with no subscriber accounts. -/
def emptyUsersDb : DB :=
  { sampleDb with radiusUsers := [] }

/-- The C9 round-trip profile input: 1024/2048 kbps at price 29.99. -/
def roundTripInput : CreateRadiusProfileInput :=
  { name := "N", upload_speed := 1024, download_speed := 2048, price := some ⟨2999, 2⟩ }

/-- A sample create-account input with a fresh username. -/
def freshCreateInput : CreateRadiusUserInput :=
  { username := "w", password := "a", profile_id := 1 }

/-- The account `freshCreateInput` creates on `sampleDb` at time 5. -/
def freshCreatedUser : RadiusUserRow :=
  { id := 2, username := "w", password := hashPassword "a" "ab", profile_id := 1,
    full_name := none, email := none, phone := none, address := none,
    status := .active, created_at := 5, expires_at := none }

/-! ## String and digest lemmas -/

theorem stringMkData (s : String) : String.mk s.data = s := by
  cases s
  rfl

theorem splitChunks_ne_nil (l : List Char) : splitChunks l ≠ [] := by
  induction l with
  | nil => simp [splitChunks]
  | cons c rest ih =>
    simp only [splitChunks]
    by_cases h : c == ':'
    · simp [h]
    · simp only [h]
      cases hsc : splitChunks rest with
      | nil => simp
      | cons a t => simp

theorem splitChunks_no_colon (l : List Char) (h : ':' ∉ l) : splitChunks l = [l] := by
  induction l with
  | nil => rfl
  | cons c rest ih =>
    simp only [List.mem_cons, not_or] at h
    have hc : (c == ':') = false := by
      simp only [beq_eq_false_iff_ne, ne_eq]
      exact fun he => h.1 (he ▸ rfl)
    simp [splitChunks, hc, ih h.2]

theorem splitChunks_append (a b : List Char) (h : ':' ∉ a) :
    splitChunks (a ++ ':' :: b) = a :: splitChunks b := by
  induction a with
  | nil => simp [splitChunks]
  | cons c rest ih =>
    simp only [List.mem_cons, not_or] at h
    have hc : (c == ':') = false := by
      simp only [beq_eq_false_iff_ne, ne_eq]
      exact fun he => h.1 (he ▸ rfl)
    have hr := ih h.2
    simp [splitChunks, hc, hr]

theorem append_sep_inj (c : Char) (a a' b b' : List Char) (ha : c ∉ a) (ha' : c ∉ a')
    (h : a ++ c :: b = a' ++ c :: b') : a = a' ∧ b = b' := by
  induction a generalizing a' with
  | nil =>
    cases a' with
    | nil => simpa using h
    | cons x t =>
      simp only [List.nil_append, List.cons_append, List.cons.injEq] at h
      exact absurd (List.mem_cons.mpr (Or.inl h.1)) ha'
  | cons x t ih =>
    cases a' with
    | nil =>
      simp only [List.cons_append, List.nil_append, List.cons.injEq] at h
      exact absurd (List.mem_cons.mpr (Or.inl h.1.symm)) ha
    | cons y s =>
      simp only [List.cons_append, List.cons.injEq] at h
      have hx : x = y := h.1
      have ht := ih s (fun hm => ha (List.mem_cons.mpr (Or.inr hm)))
        (fun hm => ha' (List.mem_cons.mpr (Or.inr hm))) h.2
      exact ⟨by rw [hx, ht.1], ht.2⟩

theorem g_not_mem_rep (n : Nat) : 'g' ∉ List.replicate n '1' := by
  intro h
  exact absurd (List.eq_of_mem_replicate h) (by decide)

theorem mem_encStr (l : List Char) (x : Char) (h : x ∈ encStr l) : x = '1' ∨ x = 'g' := by
  simp only [encStr, List.mem_flatMap] at h
  obtain ⟨c, _, hc⟩ := h
  simp only [encChar, List.mem_append, List.mem_replicate, List.mem_singleton] at hc
  rcases hc with ⟨_, h1⟩ | h2
  · exact Or.inl h1
  · exact Or.inr h2

theorem colon_not_mem_encStr (l : List Char) : ':' ∉ encStr l := by
  intro h
  rcases mem_encStr l ':' h with h | h <;> exact absurd h (by decide)

theorem x_not_mem_encStr (l : List Char) : 'x' ∉ encStr l := by
  intro h
  rcases mem_encStr l 'x' h with h | h <;> exact absurd h (by decide)

theorem encStr_inj (l₁ l₂ : List Char) (h : encStr l₁ = encStr l₂) : l₁ = l₂ := by
  induction l₁ generalizing l₂ with
  | nil =>
    cases l₂ with
    | nil => rfl
    | cons d s => simp [encStr, encChar] at h
  | cons c t ih =>
    cases l₂ with
    | nil => simp [encStr, encChar] at h
    | cons d s =>
      have h' : List.replicate c.toNat '1' ++ 'g' :: encStr t
          = List.replicate d.toNat '1' ++ 'g' :: encStr s := by
        simpa [encStr, encChar, List.append_assoc] using h
      obtain ⟨h1, h2⟩ :=
        append_sep_inj 'g' _ _ _ _ (g_not_mem_rep _) (g_not_mem_rep _) h'
      have hn : c.toNat = d.toNat := by
        simpa using congrArg List.length h1
      have hc : c = d := Char.ext (UInt32.ext hn)
      rw [hc, ih s h2]

theorem length_le_encStr (l : List Char) : l.length ≤ (encStr l).length := by
  induction l with
  | nil => simp [encStr]
  | cons c t ih =>
    simp only [encStr, List.flatMap_cons, List.length_append, List.length_cons] at *
    simp only [encChar, List.length_append, List.length_replicate, List.length_cons,
      List.length_nil]
    omega

theorem pbkdf2_data (p s : String) :
    (pbkdf2 p s).data = encStr p.data ++ 'x' :: encStr s.data := rfl

theorem colon_not_mem_pbkdf2 (p s : String) : ':' ∉ (pbkdf2 p s).data := by
  rw [pbkdf2_data]
  intro h
  rcases List.mem_append.mp h with h | h
  · exact colon_not_mem_encStr _ h
  · rcases List.mem_cons.mp h with h | h
    · exact absurd h (by decide)
    · exact colon_not_mem_encStr _ h

theorem pbkdf2_password_inj (p q s : String) (h : pbkdf2 p s = pbkdf2 q s) : p = q := by
  have hd := congrArg String.data h
  rw [pbkdf2_data, pbkdf2_data] at hd
  obtain ⟨h1, _⟩ :=
    append_sep_inj 'x' _ _ _ _ (x_not_mem_encStr _) (x_not_mem_encStr _) hd
  exact String.ext (encStr_inj _ _ h1)

theorem hashPassword_data (p s : String) :
    (hashPassword p s).data = s.data ++ ':' :: (pbkdf2 p s).data := by
  simp [hashPassword, String.data_append]

theorem splitColon_hash (p s : String) (hs : ':' ∉ s.data) :
    splitColon (hashPassword p s) = [s, pbkdf2 p s] := by
  unfold splitColon
  rw [hashPassword_data, splitChunks_append _ _ hs,
    splitChunks_no_colon _ (colon_not_mem_pbkdf2 p s)]
  simp [stringMkData]

theorem verify_hash_self (p s : String) (hs : ':' ∉ s.data) :
    verifyPassword p (hashPassword p s) = true := by
  unfold verifyPassword
  rw [splitColon_hash p s hs]
  simp

theorem verify_hash_wrong (p w s : String) (hs : ':' ∉ s.data) (hw : w ≠ p) :
    verifyPassword w (hashPassword p s) = false := by
  unfold verifyPassword
  rw [splitColon_hash p s hs]
  simp only [beq_eq_false_iff_ne, ne_eq]
  exact fun he => hw (pbkdf2_password_inj w p s he.symm)

theorem verify_no_colon (p h : String) (hh : ':' ∉ h.data) :
    verifyPassword p h = false := by
  unfold verifyPassword splitColon
  rw [splitChunks_no_colon _ hh]
  simp

theorem hash_ne_password (p s : String) : hashPassword p s ≠ p := by
  intro he
  have hd : (hashPassword p s).data.length = p.data.length := by rw [he]
  rw [hashPassword_data, pbkdf2_data] at hd
  simp only [List.length_append, List.length_cons] at hd
  have h1 := length_le_encStr p.data
  omega

theorem isHex_no_colon (s : String) (h : isHexString s = true) : ':' ∉ s.data := by
  intro hm
  have hc := List.all_eq_true.mp h _ hm
  exact absurd hc (by decide)

theorem md5Hex_data (s : String) : (md5Hex s).data = encStr s.data := rfl

theorem colon_not_mem_md5Hex (s : String) : ':' ∉ (md5Hex s).data := by
  rw [md5Hex_data]
  exact colon_not_mem_encStr _

theorem hash_has_colon (p s : String) : ':' ∈ (hashPassword p s).data := by
  rw [hashPassword_data]
  exact List.mem_append.mpr (Or.inr (List.mem_cons.mpr (Or.inl rfl)))

theorem md5Hex_ne_hashPassword (m p s : String) : md5Hex m ≠ hashPassword p s := by
  intro he
  exact colon_not_mem_md5Hex m (he ▸ hash_has_colon p s)

/-! ## List helpers -/

theorem filter_map_ite {α : Type} (l : List α) (p : α → Bool) (f : α → α)
    (hf : ∀ x, p (f x) = p x) :
    (l.map (fun x => if p x then f x else x)).filter p = (l.filter p).map f := by
  induction l with
  | nil => rfl
  | cons x t ih =>
    by_cases hp : p x = true
    · simp [List.filter_cons, hf x, hp, ih]
    · have hp' : p x = false := by
        cases h : p x
        · rfl
        · exact absurd h hp
      simp only [List.map_cons, hp', Bool.false_eq_true, if_false, List.filter_cons, ih]

theorem filter_eq_nil_of_none {α : Type} (l : List α) (p : α → Bool)
    (h : ∀ x ∈ l, p x = false) : l.filter p = [] := by
  induction l with
  | nil => rfl
  | cons x t ih =>
    simp only [List.filter_cons, h x (List.mem_cons_self x t), Bool.false_eq_true, if_false]
    exact ih fun y hy => h y (List.mem_cons.mpr (Or.inr hy))

theorem filter_ne_nil_of_mem {α : Type} (l : List α) (p : α → Bool) (x : α)
    (hx : x ∈ l) (hp : p x = true) : l.filter p ≠ [] := by
  intro h
  have hm := List.mem_filter.mpr ⟨hx, hp⟩
  rw [h] at hm
  exact absurd hm (List.not_mem_nil x)

theorem head_filter_mem_and_sat {α : Type} {l : List α} {p : α → Bool} {x : α} {rest : List α}
    (h : l.filter p = x :: rest) : x ∈ l ∧ p x = true := by
  have hm : x ∈ l.filter p := by
    rw [h]
    exact List.mem_cons_self x rest
  exact ⟨(List.mem_filter.mp hm).1, (List.mem_filter.mp hm).2⟩

theorem filter_singleton_map_ite {α : Type} (l : List α) (p : α → Bool) (f : α → α)
    (hf : ∀ x, p (f x) = p x) (u : α) (h : l.filter p = [u]) :
    (l.map (fun x => if p x then f x else x)).filter p = [f u] := by
  rw [filter_map_ite l p f hf, h]
  rfl

/-! ## Claim theorems -/

/-- C3: for every secret, hashing under two distinct (hex) salts yields two
different stored strings; `verifyPassword` accepts the hashed secret and
rejects every other secret; and on a stored string without the ':' format
separator (a malformed stored hash, where the JS hash component is
`undefined`) it returns false — the embedding is a total function, so no
exception is possible. -/
theorem hasher_salted_verify_total :
    (∀ s salt1 salt2 : String, isHexString salt1 = true → isHexString salt2 = true →
      salt1 ≠ salt2 → hashPassword s salt1 ≠ hashPassword s salt2)
    ∧ (∀ s salt : String, isHexString salt = true →
      verifyPassword s (hashPassword s salt) = true)
    ∧ (∀ s w salt : String, isHexString salt = true → w ≠ s →
      verifyPassword w (hashPassword s salt) = false)
    ∧ (∀ p h : String, ':' ∉ h.data → verifyPassword p h = false) := by
  refine ⟨?_, ?_, ?_, ?_⟩
  · intro s s1 s2 h1 h2 hne he
    have hd := congrArg String.data he
    rw [hashPassword_data, hashPassword_data] at hd
    obtain ⟨ha, _⟩ :=
      append_sep_inj ':' _ _ _ _ (isHex_no_colon _ h1) (isHex_no_colon _ h2) hd
    exact hne (String.ext ha)
  · intro s salt h
    exact verify_hash_self s salt (isHex_no_colon _ h)
  · intro s w salt h hw
    exact verify_hash_wrong s w salt (isHex_no_colon _ h) hw
  · intro p h hh
    exact verify_no_colon p h hh

/-- Witness for C3 at concrete secrets and salts. -/
theorem hasher_salted_verify_total_witness :
    hashPassword "pw" "ab" ≠ hashPassword "pw" "cd"
    ∧ verifyPassword "pw" (hashPassword "pw" "ab") = true
    ∧ verifyPassword "pq" (hashPassword "pw" "ab") = false
    ∧ verifyPassword "pw" "garbage" = false :=
  ⟨hasher_salted_verify_total.1 "pw" "ab" "cd" (by decide) (by decide) (by decide),
   hasher_salted_verify_total.2.1 "pw" "ab" (by decide),
   hasher_salted_verify_total.2.2.1 "pw" "pq" "ab" (by decide) (by decide),
   hasher_salted_verify_total.2.2.2 "pw" "garbage" (by decide)⟩

/-- C1: `createRadiusUser` with an unresolvable profile id fails with the
reference error identifying that id; with the profile resolving, a
username already held by an account fails with the conflict error
identifying that username; and after `deleteRadiusUser` removes the
account owning a username (usernames being unique), creating an account
with that username succeeds again. -/
theorem createAccount_refs_conflicts_delete_frees :
    (∀ (db : DB) (input : CreateRadiusUserInput) (salt : String) (now : Int),
      (∀ p ∈ db.radiusProfiles, p.id ≠ input.profile_id) →
      createRadiusUser input salt now db = (db, .error (.profileDoesNotExist input.profile_id))
        ∧ (DomainError.profileDoesNotExist input.profile_id).message
            = "Profile with ID " ++ toString input.profile_id ++ " does not exist")
    ∧ (∀ (db : DB) (input : CreateRadiusUserInput) (salt : String) (now : Int)
        (p : RadiusProfileRow) (u : RadiusUserRow),
      p ∈ db.radiusProfiles → p.id = input.profile_id →
      u ∈ db.radiusUsers → u.username = input.username →
      createRadiusUser input salt now db = (db, .error (.usernameExists input.username))
        ∧ (DomainError.usernameExists input.username).message
            = "Username " ++ input.username ++ " already exists")
    ∧ (∀ (db : DB) (u : RadiusUserRow) (input : CreateRadiusUserInput) (salt : String)
        (now now2 : Int),
      u ∈ db.radiusUsers →
      (∀ v ∈ db.radiusUsers, v.username = u.username → v.id = u.id) →
      input.username = u.username →
      (∃ p ∈ db.radiusProfiles, p.id = input.profile_id) →
      (deleteRadiusUser u.id now db).2 = .ok true
        ∧ ∃ newUser, (createRadiusUser input salt now2 (deleteRadiusUser u.id now db).1).2
            = .ok newUser) := by
  refine ⟨?_, ?_, ?_⟩
  · intro db input salt now h
    have hf : db.radiusProfiles.filter (fun p => p.id == input.profile_id) = [] :=
      filter_eq_nil_of_none _ _ fun x hx => by
        simp only [beq_eq_false_iff_ne, ne_eq]
        exact h x hx
    exact ⟨by simp [createRadiusUser, hf], rfl⟩
  · intro db input salt now p u hp hpid hu husr
    have hne1 : db.radiusProfiles.filter (fun q => q.id == input.profile_id) ≠ [] :=
      filter_ne_nil_of_mem _ _ p hp (by simp [hpid])
    have hne2 : db.radiusUsers.filter (fun v => v.username == input.username) ≠ [] :=
      filter_ne_nil_of_mem _ _ u hu (by simp [husr])
    have h1 : ((db.radiusProfiles.filter (fun q => q.id == input.profile_id)).length == 0)
        = false := by
      simpa [List.length_eq_zero] using hne1
    have h2 : 0 < (db.radiusUsers.filter (fun v => v.username == input.username)).length :=
      List.length_pos.mpr hne2
    exact ⟨by simp [createRadiusUser, h1, h2], rfl⟩
  · intro db u input salt now now2 hu huniq husr hex
    obtain ⟨p, hp, hpid⟩ := hex
    have hne : db.radiusUsers.filter (fun v => v.id == u.id) ≠ [] :=
      filter_ne_nil_of_mem _ _ u hu (by simp)
    cases hfl : db.radiusUsers.filter (fun v => v.id == u.id) with
    | nil => exact absurd hfl hne
    | cons w rest =>
      have hdel2 : (deleteRadiusUser u.id now db).2 = .ok true := by
        simp [deleteRadiusUser, hfl]
      have hprof1 : (deleteRadiusUser u.id now db).1.radiusProfiles = db.radiusProfiles := by
        simp [deleteRadiusUser, hfl]
      have husers1 : (deleteRadiusUser u.id now db).1.radiusUsers
          = db.radiusUsers.filter (fun v => !(v.id == u.id)) := by
        simp [deleteRadiusUser, hfl]
      have hne1b : (deleteRadiusUser u.id now db).1.radiusProfiles.filter
          (fun q => q.id == input.profile_id) ≠ [] := by
        rw [hprof1]
        exact filter_ne_nil_of_mem _ _ p hp (by simp [hpid])
      have h1 : (((deleteRadiusUser u.id now db).1.radiusProfiles.filter
          (fun q => q.id == input.profile_id)).length == 0) = false := by
        simpa [List.length_eq_zero] using hne1b
      have h2 : (deleteRadiusUser u.id now db).1.radiusUsers.filter
          (fun v => v.username == input.username) = [] := by
        rw [husers1]
        apply filter_eq_nil_of_none
        intro x hx
        have hxmem := (List.mem_filter.mp hx).1
        have hxid : (x.id == u.id) = false := by
          have := (List.mem_filter.mp hx).2
          simpa using this
        simp only [beq_eq_false_iff_ne, ne_eq]
        intro hxu
        rw [husr] at hxu
        have := huniq x hxmem hxu
        rw [beq_eq_false_iff_ne] at hxid
        exact hxid this
      refine ⟨hdel2, ?_⟩
      have hred : (createRadiusUser input salt now2 (deleteRadiusUser u.id now db).1).2
          = .ok { id := (deleteRadiusUser u.id now db).1.nextUserId
                  username := input.username
                  password := hashPassword input.password salt
                  profile_id := input.profile_id
                  full_name := input.full_name
                  email := input.email
                  phone := input.phone
                  address := input.address
                  status := .active
                  created_at := now2
                  expires_at := input.expires_at } := by
        simp [createRadiusUser, h1, h2]
      exact ⟨_, hred⟩

/-- Witness for C1 on a one-profile, one-account store. -/
theorem createAccount_refs_conflicts_delete_frees_witness :
    (createRadiusUser { username := "w", password := "a", profile_id := 9 } "ab" 5 sampleDb
      = (sampleDb, .error (.profileDoesNotExist 9)))
    ∧ (createRadiusUser { username := "u", password := "a", profile_id := 1 } "ab" 5 sampleDb
      = (sampleDb, .error (.usernameExists "u")))
    ∧ ((deleteRadiusUser 1 5 sampleDb).2 = .ok true
      ∧ ∃ newUser,
          (createRadiusUser { username := "u", password := "a", profile_id := 1 } "ab" 6
            (deleteRadiusUser 1 5 sampleDb).1).2 = .ok newUser) :=
  ⟨(createAccount_refs_conflicts_delete_frees.1 sampleDb
      { username := "w", password := "a", profile_id := 9 } "ab" 5 (by decide)).1,
   (createAccount_refs_conflicts_delete_frees.2.1 sampleDb
      { username := "u", password := "a", profile_id := 1 } "ab" 5 sampleProfile sampleUser
      (by decide) (by decide) (by decide) (by decide)).1,
   by
     have hw := createAccount_refs_conflicts_delete_frees.2.2 sampleDb sampleUser
       { username := "u", password := "a", profile_id := 1 } "ab" 5 6
       (by decide) (by decide) (by decide) ⟨sampleProfile, by decide, by decide⟩
     exact hw⟩

/-- C2: every successful `createRadiusUser` call persists the account with
status `active` (the insert relies on the column default), stores the
salted hash rather than the plaintext secret in the password field of the
persisted and returned account, appends the account row, and appends
exactly one `account_created` activity log entry referencing the new
account's id and username after the account row. -/
theorem createAccount_persists_active_hash_log :
    ∀ (db : DB) (input : CreateRadiusUserInput) (salt : String) (now : Int)
      (db2 : DB) (newUser : RadiusUserRow),
      createRadiusUser input salt now db = (db2, .ok newUser) →
      newUser.status = RadiusUserStatus.active
      ∧ newUser.password = hashPassword input.password salt
      ∧ newUser.password ≠ input.password
      ∧ db2.radiusUsers = db.radiusUsers ++ [newUser]
      ∧ ∃ entry : ActivityLogRow,
          db2.activityLogs = db.activityLogs ++ [entry]
          ∧ entry.action = ActivityAction.account_created
          ∧ entry.user_id = some newUser.id
          ∧ entry.username = newUser.username := by
  intro db input salt now db2 newUser h
  unfold createRadiusUser at h
  by_cases h1 : ((db.radiusProfiles.filter (fun p => p.id == input.profile_id)).length == 0)
      = true
  · rw [if_pos h1] at h
    exact absurd (congrArg Prod.snd h) (by simp)
  · rw [if_neg h1] at h
    by_cases h2 : (db.radiusUsers.filter (fun v => v.username == input.username)).length > 0
    · rw [if_pos h2] at h
      exact absurd (congrArg Prod.snd h) (by simp)
    · rw [if_neg h2] at h
      simp only [Prod.mk.injEq] at h
      obtain ⟨hdb, hok⟩ := h
      have hnu := Except.ok.inj hok
      subst hdb
      subst hnu
      refine ⟨rfl, rfl, hash_ne_password input.password salt, rfl, ⟨_, rfl, rfl, rfl, rfl⟩⟩

/-- Witness for C2: creating a fresh account on the sample store. -/
theorem createAccount_persists_active_hash_log_witness :
    freshCreatedUser.status = RadiusUserStatus.active
    ∧ freshCreatedUser.password = hashPassword "a" "ab"
    ∧ freshCreatedUser.password ≠ "a"
    ∧ (createRadiusUser freshCreateInput "ab" 5 sampleDb).1.radiusUsers
        = sampleDb.radiusUsers ++ [freshCreatedUser]
    ∧ ∃ entry : ActivityLogRow,
        (createRadiusUser freshCreateInput "ab" 5 sampleDb).1.activityLogs
          = sampleDb.activityLogs ++ [entry]
        ∧ entry.action = ActivityAction.account_created
        ∧ entry.user_id = some freshCreatedUser.id
        ∧ entry.username = freshCreatedUser.username :=
  createAccount_persists_active_hash_log sampleDb freshCreateInput "ab" 5
    (createRadiusUser freshCreateInput "ab" 5 sampleDb).1 freshCreatedUser (by decide)

/-- C4 counterexample: on the sample store, updating account 1 with the new
secret "new" succeeds, but `verifyPassword "new"` applied to the stored
hash after the update returns `false`, not `true` as the claim states:
the update path hashes with unsalted MD5, whose digest lacks the
`salt:hash` format `verifyPassword` parses. -/
theorem updateAccount_new_secret_verify_counterexample :
    ((updateRadiusUser { id := 1, password := some "new" } 5 sampleDb).2.map
      (fun u => verifyPassword "new" u.password)) = Except.ok false := by
  decide

/-- C4 (amended): an update supplying a new secret hashes it (with
unsalted MD5) before storing; the stored hash differs from any hash the
create path produced, but `verifyPassword` returns `false` for the new
secret as well as for the old one, because the MD5 digest does not carry
the `salt:hash` format that `verifyPassword` expects. -/
theorem updateAccount_secret_md5_not_verifiable :
    ∀ (db : DB) (input : UpdateRadiusUserInput) (now : Int) (db2 : DB) (u2 : RadiusUserRow)
      (newSecret oldSecret oldSalt : String),
      input.password = some newSecret →
      updateRadiusUser input now db = (db2, .ok u2) →
      u2.password = md5Hex newSecret
      ∧ u2.password ≠ hashPassword oldSecret oldSalt
      ∧ verifyPassword newSecret u2.password = false
      ∧ verifyPassword oldSecret u2.password = false := by
  intro db input now db2 u2 newSecret oldSecret oldSalt hp h
  have hpw : u2.password = md5Hex newSecret := by
    unfold updateRadiusUser at h
    cases hf1 : db.radiusUsers.filter (fun u => u.id == input.id) with
    | nil =>
      rw [hf1] at h
      exact absurd (congrArg Prod.snd h) (by simp)
    | cons w0 rest0 =>
      rw [hf1] at h
      simp only [] at h
      split at h
      · exact absurd (congrArg Prod.snd h) (by simp)
      · cases hf2 : (db.radiusUsers.map
            (fun u => if u.id == input.id then applyRadiusUserUpdate input u else u)).filter
            (fun u => u.id == input.id) with
        | nil =>
          rw [hf2] at h
          exact absurd (congrArg Prod.snd h) (by simp)
        | cons updated tail =>
          rw [hf2] at h
          have hu2 : updated = u2 := Except.ok.inj (congrArg Prod.snd h)
          obtain ⟨hmem, hpred⟩ := head_filter_mem_and_sat hf2
          obtain ⟨w, _, hw⟩ := List.mem_map.mp hmem
          by_cases hid : (w.id == input.id) = true
          · rw [if_pos hid] at hw
            rw [← hu2, ← hw]
            simp [applyRadiusUserUpdate, hp]
          · rw [if_neg hid] at hw
            rw [hw] at hid
            exact absurd hpred hid
  refine ⟨hpw, ?_, ?_, ?_⟩
  · rw [hpw]
    exact md5Hex_ne_hashPassword newSecret oldSecret oldSalt
  · rw [hpw]
    exact verify_no_colon _ _ (colon_not_mem_md5Hex newSecret)
  · rw [hpw]
    exact verify_no_colon _ _ (colon_not_mem_md5Hex newSecret)

/-- Witness for the amended C4: updating account 1 of the sample store. -/
theorem updateAccount_secret_md5_not_verifiable_witness :
    (applyRadiusUserUpdate { id := 1, password := some "new" } sampleUser).password
        = md5Hex "new"
    ∧ (applyRadiusUserUpdate { id := 1, password := some "new" } sampleUser).password
        ≠ hashPassword "old" "ab"
    ∧ verifyPassword "new"
        (applyRadiusUserUpdate { id := 1, password := some "new" } sampleUser).password = false
    ∧ verifyPassword "old"
        (applyRadiusUserUpdate { id := 1, password := some "new" } sampleUser).password
        = false :=
  updateAccount_secret_md5_not_verifiable sampleDb { id := 1, password := some "new" } 5
    (updateRadiusUser { id := 1, password := some "new" } 5 sampleDb).1
    (applyRadiusUserUpdate { id := 1, password := some "new" } sampleUser)
    "new" "old" "ab" rfl (by decide)

/-- C6: `deleteRadiusProfile` fails with the not-found error when the id
does not resolve; fails with the conflict error carrying exactly the
dependent-account count N counted at check time (message "Cannot delete
profile: N users are still using this profile") while leaving the store
unchanged; and deletes the profile and returns success when the count is
zero. -/
theorem deleteProfile_notfound_conflict_success :
    (∀ (db : DB) (i : Int), (∀ p ∈ db.radiusProfiles, p.id ≠ i) →
      deleteRadiusProfile i db = (db, .error (.profileNotFound i))
        ∧ (DomainError.profileNotFound i).message
            = "Radius profile with id " ++ toString i ++ " not found")
    ∧ (∀ (db : DB) (i : Int) (p : RadiusProfileRow), p ∈ db.radiusProfiles → p.id = i →
      ∀ n : Nat, n = (db.radiusUsers.filter (fun u => u.profile_id == i)).length → 0 < n →
      deleteRadiusProfile i db = (db, .error (.profileHasDependents n))
        ∧ (DomainError.profileHasDependents n).message
            = "Cannot delete profile: " ++ toString n ++ " users are still using this profile")
    ∧ (∀ (db : DB) (i : Int) (p : RadiusProfileRow), p ∈ db.radiusProfiles → p.id = i →
      (db.radiusUsers.filter (fun u => u.profile_id == i)).length = 0 →
      deleteRadiusProfile i db
        = ({ db with radiusProfiles := db.radiusProfiles.filter (fun q => !(q.id == i)) },
          .ok true)) := by
  refine ⟨?_, ?_, ?_⟩
  · intro db i h
    have hf : db.radiusProfiles.filter (fun p => p.id == i) = [] :=
      filter_eq_nil_of_none _ _ fun x hx => by
        simp only [beq_eq_false_iff_ne, ne_eq]
        exact h x hx
    exact ⟨by simp [deleteRadiusProfile, hf], rfl⟩
  · intro db i p hp hpi n hn hpos
    have hne1 : db.radiusProfiles.filter (fun q => q.id == i) ≠ [] :=
      filter_ne_nil_of_mem _ _ p hp (by simp [hpi])
    have h1 : ((db.radiusProfiles.filter (fun q => q.id == i)).length == 0) = false := by
      simpa [List.length_eq_zero] using hne1
    have h2 : 0 < (db.radiusUsers.filter (fun u => u.profile_id == i)).length := hn ▸ hpos
    refine ⟨?_, rfl⟩
    rw [hn]
    simp [deleteRadiusProfile, h1, h2]
  · intro db i p hp hpi hzero
    have hne1 : db.radiusProfiles.filter (fun q => q.id == i) ≠ [] :=
      filter_ne_nil_of_mem _ _ p hp (by simp [hpi])
    have h1 : ((db.radiusProfiles.filter (fun q => q.id == i)).length == 0) = false := by
      simpa [List.length_eq_zero] using hne1
    have h2 : ¬ (0 < (db.radiusUsers.filter (fun u => u.profile_id == i)).length) := by
      rw [hzero]
      exact lt_irrefl 0
    simp [deleteRadiusProfile, h1, h2]

/-- Witness for C6: missing id, a guarded delete on the sample store with
one dependent account, and a successful delete once no account remains. -/
theorem deleteProfile_notfound_conflict_success_witness :
    (deleteRadiusProfile 9 sampleDb = (sampleDb, .error (.profileNotFound 9)))
    ∧ (deleteRadiusProfile 1 sampleDb = (sampleDb, .error (.profileHasDependents 1)))
    ∧ (deleteRadiusProfile 1 emptyUsersDb
        = ({ emptyUsersDb with
              radiusProfiles := emptyUsersDb.radiusProfiles.filter (fun q => !(q.id == 1)) },
          .ok true)) :=
  ⟨(deleteProfile_notfound_conflict_success.1 sampleDb 9 (by decide)).1,
   (deleteProfile_notfound_conflict_success.2.1 sampleDb 1 sampleProfile (by decide) (by decide)
      1 (by decide) (by decide)).1,
   deleteProfile_notfound_conflict_success.2.2 emptyUsersDb 1 sampleProfile (by decide)
      (by decide) (by decide)⟩

/-- C5 (accounts): a partial `updateRadiusUser` leaves every request field
that is absent at its pre-update value, sets every nullable field
supplied as an explicit null to null, and never touches the username,
creation timestamp or id. -/
theorem updateAccount_partial_frame :
    ∀ (db : DB) (input : UpdateRadiusUserInput) (now : Int) (u : RadiusUserRow)
      (db2 : DB) (u2 : RadiusUserRow),
      db.radiusUsers.filter (fun v => v.id == input.id) = [u] →
      updateRadiusUser input now db = (db2, .ok u2) →
      (input.password = none → u2.password = u.password)
      ∧ (input.profile_id = none → u2.profile_id = u.profile_id)
      ∧ (input.full_name = none → u2.full_name = u.full_name)
      ∧ (input.full_name = some none → u2.full_name = none)
      ∧ (input.email = none → u2.email = u.email)
      ∧ (input.email = some none → u2.email = none)
      ∧ (input.phone = none → u2.phone = u.phone)
      ∧ (input.phone = some none → u2.phone = none)
      ∧ (input.address = none → u2.address = u.address)
      ∧ (input.address = some none → u2.address = none)
      ∧ (input.status = none → u2.status = u.status)
      ∧ (input.expires_at = none → u2.expires_at = u.expires_at)
      ∧ (input.expires_at = some none → u2.expires_at = none)
      ∧ u2.username = u.username
      ∧ u2.created_at = u.created_at
      ∧ u2.id = u.id := by
  intro db input now u db2 u2 hfl h
  unfold updateRadiusUser at h
  rw [hfl] at h
  simp only [] at h
  split at h
  · exact absurd (congrArg Prod.snd h) (by simp)
  · have hm := filter_singleton_map_ite db.radiusUsers (fun v => v.id == input.id)
      (applyRadiusUserUpdate input) (fun x => by simp [applyRadiusUserUpdate]) u hfl
    rw [hm] at h
    have hu2 : applyRadiusUserUpdate input u = u2 := Except.ok.inj (congrArg Prod.snd h)
    rw [← hu2]
    refine ⟨?_, ?_, ?_, ?_, ?_, ?_, ?_, ?_, ?_, ?_, ?_, ?_, ?_, ?_, ?_, ?_⟩ <;>
      first
        | (intro hx; simp [applyRadiusUserUpdate, hx])
        | simp [applyRadiusUserUpdate]

/-- C5 (profiles): a partial `updateRadiusProfile` persists a row whose
absent fields keep their pre-update values and whose nullable fields
supplied as null become null, with id and creation time untouched. -/
theorem updateProfile_partial_frame :
    ∀ (db : DB) (input : UpdateRadiusProfileInput) (p : RadiusProfileRow)
      (db2 : DB) (w2 : RadiusProfileWire),
      db.radiusProfiles.filter (fun q => q.id == input.id) = [p] →
      updateRadiusProfile input db = (db2, .ok w2) →
      db2.radiusProfiles.filter (fun q => q.id == input.id)
          = [applyRadiusProfileUpdate input p]
        ∧ (input.name = none → (applyRadiusProfileUpdate input p).name = p.name)
        ∧ (input.upload_speed = none
            → (applyRadiusProfileUpdate input p).upload_speed = p.upload_speed)
        ∧ (input.download_speed = none
            → (applyRadiusProfileUpdate input p).download_speed = p.download_speed)
        ∧ (input.session_timeout = none
            → (applyRadiusProfileUpdate input p).session_timeout = p.session_timeout)
        ∧ (input.session_timeout = some none
            → (applyRadiusProfileUpdate input p).session_timeout = none)
        ∧ (input.idle_timeout = none
            → (applyRadiusProfileUpdate input p).idle_timeout = p.idle_timeout)
        ∧ (input.idle_timeout = some none
            → (applyRadiusProfileUpdate input p).idle_timeout = none)
        ∧ (input.monthly_quota = none
            → (applyRadiusProfileUpdate input p).monthly_quota = p.monthly_quota)
        ∧ (input.monthly_quota = some none
            → (applyRadiusProfileUpdate input p).monthly_quota = none)
        ∧ (input.price = none → (applyRadiusProfileUpdate input p).price = p.price)
        ∧ (input.price = some none → (applyRadiusProfileUpdate input p).price = none)
        ∧ (input.description = none
            → (applyRadiusProfileUpdate input p).description = p.description)
        ∧ (input.description = some none
            → (applyRadiusProfileUpdate input p).description = none)
        ∧ (applyRadiusProfileUpdate input p).created_at = p.created_at
        ∧ (applyRadiusProfileUpdate input p).id = p.id := by
  intro db input p db2 w2 hfl h
  unfold updateRadiusProfile at h
  rw [hfl] at h
  simp only [] at h
  have hm := filter_singleton_map_ite db.radiusProfiles (fun q => q.id == input.id)
    (applyRadiusProfileUpdate input) (fun x => by simp [applyRadiusProfileUpdate]) p hfl
  rw [hm] at h
  have hdb2 : db2.radiusProfiles
      = db.radiusProfiles.map
          (fun q => if q.id == input.id then applyRadiusProfileUpdate input q else q) := by
    have := congrArg Prod.fst h
    simp only [] at this
    rw [← this]
  refine ⟨?_, ?_⟩
  · rw [hdb2, hm]
  · refine ⟨?_, ?_, ?_, ?_, ?_, ?_, ?_, ?_, ?_, ?_, ?_, ?_, ?_, ?_, ?_⟩ <;>
      first
        | (intro hx; simp [applyRadiusProfileUpdate, hx])
        | simp [applyRadiusProfileUpdate]

/-- C5 (devices): a partial `updateMikrotikDevice` leaves every absent
request field at its pre-update value; status, creation time and id are
untouched while `updated_at` is always refreshed. -/
theorem updateDevice_partial_frame :
    ∀ (db : DB) (input : UpdateMikrotikDeviceInput) (now : Int) (d : MikrotikDeviceRow)
      (db2 : DB) (d2 : MikrotikDeviceRow),
      db.mikrotikDevices.filter (fun x => x.id == input.id) = [d] →
      updateMikrotikDevice input now db = (db2, .ok d2) →
      (input.name = none → d2.name = d.name)
      ∧ (input.ip_address = none → d2.ip_address = d.ip_address)
      ∧ (input.username = none → d2.username = d.username)
      ∧ (input.password = none → d2.password = d.password)
      ∧ (input.port = none → d2.port = d.port)
      ∧ d2.status = d.status
      ∧ d2.created_at = d.created_at
      ∧ d2.updated_at = now
      ∧ d2.id = d.id := by
  intro db input now d db2 d2 hfl h
  unfold updateMikrotikDevice at h
  rw [hfl] at h
  simp only [] at h
  have hm := filter_singleton_map_ite db.mikrotikDevices (fun x => x.id == input.id)
    (applyMikrotikDeviceUpdate input now) (fun x => by simp [applyMikrotikDeviceUpdate]) d hfl
  rw [hm] at h
  have hd2 : applyMikrotikDeviceUpdate input now d = d2 := Except.ok.inj (congrArg Prod.snd h)
  rw [← hd2]
  refine ⟨?_, ?_, ?_, ?_, ?_, ?_, ?_, ?_, ?_⟩ <;>
    first
      | (intro hx; simp [applyMikrotikDeviceUpdate, hx])
      | simp [applyMikrotikDeviceUpdate]

/-- C5: the three partial-update handlers leave every request field that
is absent byte-identical to its pre-update value and set every nullable
field supplied as an explicit null to null: `updateRadiusUser` (also
keeping username, creation time and id), `updateRadiusProfile` (the
persisted row, also keeping creation time and id), and
`updateMikrotikDevice` (also keeping status, creation time and id while
always refreshing `updated_at`). -/
theorem partial_update_frame :
    (∀ (db : DB) (input : UpdateRadiusUserInput) (now : Int) (u : RadiusUserRow)
      (db2 : DB) (u2 : RadiusUserRow),
      db.radiusUsers.filter (fun v => v.id == input.id) = [u] →
      updateRadiusUser input now db = (db2, .ok u2) →
      (input.password = none → u2.password = u.password)
      ∧ (input.profile_id = none → u2.profile_id = u.profile_id)
      ∧ (input.full_name = none → u2.full_name = u.full_name)
      ∧ (input.full_name = some none → u2.full_name = none)
      ∧ (input.email = none → u2.email = u.email)
      ∧ (input.email = some none → u2.email = none)
      ∧ (input.phone = none → u2.phone = u.phone)
      ∧ (input.phone = some none → u2.phone = none)
      ∧ (input.address = none → u2.address = u.address)
      ∧ (input.address = some none → u2.address = none)
      ∧ (input.status = none → u2.status = u.status)
      ∧ (input.expires_at = none → u2.expires_at = u.expires_at)
      ∧ (input.expires_at = some none → u2.expires_at = none)
      ∧ u2.username = u.username
      ∧ u2.created_at = u.created_at
      ∧ u2.id = u.id)
    ∧ (∀ (db : DB) (input : UpdateRadiusProfileInput) (p : RadiusProfileRow)
      (db2 : DB) (w2 : RadiusProfileWire),
      db.radiusProfiles.filter (fun q => q.id == input.id) = [p] →
      updateRadiusProfile input db = (db2, .ok w2) →
      db2.radiusProfiles.filter (fun q => q.id == input.id)
          = [applyRadiusProfileUpdate input p]
        ∧ (input.name = none → (applyRadiusProfileUpdate input p).name = p.name)
        ∧ (input.upload_speed = none
            → (applyRadiusProfileUpdate input p).upload_speed = p.upload_speed)
        ∧ (input.download_speed = none
            → (applyRadiusProfileUpdate input p).download_speed = p.download_speed)
        ∧ (input.session_timeout = none
            → (applyRadiusProfileUpdate input p).session_timeout = p.session_timeout)
        ∧ (input.session_timeout = some none
            → (applyRadiusProfileUpdate input p).session_timeout = none)
        ∧ (input.idle_timeout = none
            → (applyRadiusProfileUpdate input p).idle_timeout = p.idle_timeout)
        ∧ (input.idle_timeout = some none
            → (applyRadiusProfileUpdate input p).idle_timeout = none)
        ∧ (input.monthly_quota = none
            → (applyRadiusProfileUpdate input p).monthly_quota = p.monthly_quota)
        ∧ (input.monthly_quota = some none
            → (applyRadiusProfileUpdate input p).monthly_quota = none)
        ∧ (input.price = none → (applyRadiusProfileUpdate input p).price = p.price)
        ∧ (input.price = some none → (applyRadiusProfileUpdate input p).price = none)
        ∧ (input.description = none
            → (applyRadiusProfileUpdate input p).description = p.description)
        ∧ (input.description = some none
            → (applyRadiusProfileUpdate input p).description = none)
        ∧ (applyRadiusProfileUpdate input p).created_at = p.created_at
        ∧ (applyRadiusProfileUpdate input p).id = p.id)
    ∧ (∀ (db : DB) (input : UpdateMikrotikDeviceInput) (now : Int) (d : MikrotikDeviceRow)
      (db2 : DB) (d2 : MikrotikDeviceRow),
      db.mikrotikDevices.filter (fun x => x.id == input.id) = [d] →
      updateMikrotikDevice input now db = (db2, .ok d2) →
      (input.name = none → d2.name = d.name)
      ∧ (input.ip_address = none → d2.ip_address = d.ip_address)
      ∧ (input.username = none → d2.username = d.username)
      ∧ (input.password = none → d2.password = d.password)
      ∧ (input.port = none → d2.port = d.port)
      ∧ d2.status = d.status
      ∧ d2.created_at = d.created_at
      ∧ d2.updated_at = now
      ∧ d2.id = d.id) :=
  ⟨updateAccount_partial_frame, updateProfile_partial_frame, updateDevice_partial_frame⟩

/-- Witness for C5: id-only updates of the sample account, profile and
device leave representative fields unchanged (and refresh the device's
`updated_at`). -/
theorem partial_update_frame_witness :
    ((applyRadiusUserUpdate { id := 1 } sampleUser).password = sampleUser.password
      ∧ (applyRadiusUserUpdate { id := 1 } sampleUser).username = sampleUser.username)
    ∧ ((updateRadiusProfile { id := 1 } sampleDb).1.radiusProfiles.filter
          (fun q => q.id == (1 : Int))
        = [applyRadiusProfileUpdate { id := 1 } sampleProfile]
      ∧ (applyRadiusProfileUpdate { id := 1 } sampleProfile).name = sampleProfile.name)
    ∧ ((applyMikrotikDeviceUpdate { id := 1 } 7 sampleDevice).status = sampleDevice.status
      ∧ (applyMikrotikDeviceUpdate { id := 1 } 7 sampleDevice).updated_at = 7) := by
  have hu := partial_update_frame.1 sampleDb { id := 1 } 7 sampleUser
    (updateRadiusUser { id := 1 } 7 sampleDb).1
    (applyRadiusUserUpdate { id := 1 } sampleUser) (by decide) (by decide)
  have hp := partial_update_frame.2.1 sampleDb { id := 1 } sampleProfile
    (updateRadiusProfile { id := 1 } sampleDb).1
    (profileRowToWire (applyRadiusProfileUpdate { id := 1 } sampleProfile))
    (by decide) (by decide)
  have hd := partial_update_frame.2.2 sampleDeviceDb { id := 1 } 7 sampleDevice
    (updateMikrotikDevice { id := 1 } 7 sampleDeviceDb).1
    (applyMikrotikDeviceUpdate { id := 1 } 7 sampleDevice) (by decide) (by decide)
  exact ⟨⟨hu.1 rfl, hu.2.2.2.2.2.2.2.2.2.2.2.2.2.1⟩, ⟨hp.1, hp.2.1 rfl⟩,
    ⟨hd.2.2.2.2.2.1, hd.2.2.2.2.2.2.2.1⟩⟩

/-- C7: `refreshDeviceStatus` fails with the not-found error when the
device id does not resolve; otherwise the probe outcome maps to exactly
one of the three statuses (reachable to online, unreachable to offline,
a thrown probe error to the persisted status `error` with the call still
succeeding), and the handler persists and returns the device row with the
new status and refreshed timestamp. -/
theorem refreshStatus_probe_mapping :
    (∀ (db : DB) (i now : Int), (∀ d ∈ db.mikrotikDevices, d.id ≠ i) →
      refreshDeviceStatus i now db = (db, .error (.deviceNotFoundRefresh i)))
    ∧ (∀ (db : DB) (i now : Int) (d : MikrotikDeviceRow) (rest : List MikrotikDeviceRow),
      db.mikrotikDevices.filter (fun x => x.id == i) = d :: rest →
      refreshDeviceStatus i now db
        = ({ db with
              mikrotikDevices := db.mikrotikDevices.map
                  (fun x => if x.id == i then
                    { x with
                      status := probeStatus (simulateConnectionCheck d.ip_address d.port)
                      updated_at := now }
                    else x) },
          .ok { d with
                status := probeStatus (simulateConnectionCheck d.ip_address d.port)
                updated_at := now })
        ∧ (∀ e, simulateConnectionCheck d.ip_address d.port = .error e →
            probeStatus (simulateConnectionCheck d.ip_address d.port) = DeviceStatus.error)
        ∧ (probeStatus (simulateConnectionCheck d.ip_address d.port) = DeviceStatus.online
            ∨ probeStatus (simulateConnectionCheck d.ip_address d.port) = DeviceStatus.offline
            ∨ probeStatus (simulateConnectionCheck d.ip_address d.port)
                = DeviceStatus.error)) := by
  constructor
  · intro db i now h
    have hf : db.mikrotikDevices.filter (fun x => x.id == i) = [] :=
      filter_eq_nil_of_none _ _ fun x hx => by
        simp only [beq_eq_false_iff_ne, ne_eq]
        exact h x hx
    simp [refreshDeviceStatus, hf]
  · intro db i now d rest hfl
    refine ⟨?_, ?_, ?_⟩
    · unfold refreshDeviceStatus
      rw [hfl]
      simp only []
      have hm : (db.mikrotikDevices.map
          (fun x => if x.id == i then
            { x with
              status := probeStatus (simulateConnectionCheck d.ip_address d.port)
              updated_at := now }
            else x)).filter (fun x => x.id == i)
          = (d :: rest).map (fun x =>
              { x with
                status := probeStatus (simulateConnectionCheck d.ip_address d.port)
                updated_at := now }) := by
        rw [← hfl]
        exact filter_map_ite db.mikrotikDevices (fun x => x.id == i) _ (fun x => by simp)
      rw [hm, List.map_cons]
    · intro e he
      rw [he]
      rfl
    · cases hsc : simulateConnectionCheck d.ip_address d.port with
      | error e => exact Or.inr (Or.inr rfl)
      | ok b =>
        cases b
        · exact Or.inr (Or.inl rfl)
        · exact Or.inl rfl

/-- Witness for C7: a missing id, and a refresh of the sample device whose
address makes the simulated probe throw, so the persisted status is
`error` while the call succeeds. -/
theorem refreshStatus_probe_mapping_witness :
    (refreshDeviceStatus 9 5 sampleDb = (sampleDb, .error (.deviceNotFoundRefresh 9)))
    ∧ (refreshDeviceStatus 1 5 sampleDeviceDb).2
        = .ok { sampleDevice with
                status := probeStatus
                  (simulateConnectionCheck sampleDevice.ip_address sampleDevice.port)
                updated_at := 5 }
    ∧ probeStatus (simulateConnectionCheck sampleDevice.ip_address sampleDevice.port)
        = DeviceStatus.error := by
  have h2 := refreshStatus_probe_mapping.2 sampleDeviceDb 1 5 sampleDevice [] (by decide)
  exact ⟨refreshStatus_probe_mapping.1 sampleDb 9 5 (by decide),
    congrArg Prod.snd h2.1, h2.2.1 "Connection timeout" (by decide)⟩

theorem getActivityLogs_sorted (f : ActivityLogFilter) (db : DB) :
    List.Pairwise (fun a b : ActivityLogWire => b.created_at ≤ a.created_at)
      (getActivityLogs f db) := by
  unfold getActivityLogs
  rw [List.pairwise_map]
  have hs : List.Pairwise logDescOrder
      ((db.activityLogs.filter (logMatches f)).insertionSort logDescOrder) :=
    List.sorted_insertionSort _ _
  have hsub :
      ((((db.activityLogs.filter (logMatches f)).insertionSort logDescOrder).drop
          (f.offset.getD 0)).take (f.limit.getD 100)).Sublist
        ((db.activityLogs.filter (logMatches f)).insertionSort logDescOrder) :=
    (List.take_sublist _ _).trans (List.drop_sublist _ _)
  exact (hs.sublist hsub).imp (fun h => h)

theorem getActivityLogs_mem (f : ActivityLogFilter) (db : DB) (e : ActivityLogWire)
    (he : e ∈ getActivityLogs f db) :
    ∃ log ∈ db.activityLogs, logMatches f log = true ∧ e = logRowToWire log := by
  unfold getActivityLogs at he
  obtain ⟨log, hmem, hconv⟩ := List.mem_map.mp he
  have hsub :
      ((((db.activityLogs.filter (logMatches f)).insertionSort logDescOrder).drop
          (f.offset.getD 0)).take (f.limit.getD 100)).Sublist
        ((db.activityLogs.filter (logMatches f)).insertionSort logDescOrder) :=
    (List.take_sublist _ _).trans (List.drop_sublist _ _)
  have h1 : log ∈ (db.activityLogs.filter (logMatches f)).insertionSort logDescOrder :=
    hsub.subset hmem
  rw [List.mem_insertionSort] at h1
  exact ⟨log, (List.mem_filter.mp h1).1, (List.mem_filter.mp h1).2, hconv.symm⟩

theorem logMatches_components (f : ActivityLogFilter) (log : ActivityLogRow)
    (h : logMatches f log = true) :
    (∀ u, f.username = some u → u ≠ "" → log.username = u)
    ∧ (∀ a, f.action = some a → log.action = a)
    ∧ (∀ t, f.start_date = some t → t ≤ log.created_at)
    ∧ (∀ t, f.end_date = some t → log.created_at ≤ t) := by
  unfold logMatches at h
  simp only [Bool.and_eq_true] at h
  obtain ⟨⟨⟨h1, h2⟩, h3⟩, h4⟩ := h
  refine ⟨?_, ?_, ?_, ?_⟩
  · intro u hu hne
    rw [hu] at h1
    have hb : (u == "") = false := by
      simpa using hne
    simp only [hb, Bool.false_eq_true, if_false] at h1
    exact eq_of_beq h1
  · intro a ha
    rw [ha] at h2
    exact eq_of_beq h2
  · intro t ht
    rw [ht] at h3
    exact of_decide_eq_true h3
  · intro t ht
    rw [ht] at h4
    exact of_decide_eq_true h4

theorem getActivityLogs_no_filter_perm (f : ActivityLogFilter) (db : DB)
    (hu : f.username = none ∨ f.username = some "") (ha : f.action = none)
    (hs : f.start_date = none) (he : f.end_date = none)
    (hoff : f.offset = some 0) (hlim : f.limit = some db.activityLogs.length) :
    (getActivityLogs f db).Perm (db.activityLogs.map logRowToWire) := by
  unfold getActivityLogs
  have hall : db.activityLogs.filter (logMatches f) = db.activityLogs := by
    apply List.filter_eq_self.mpr
    intro x hx
    unfold logMatches
    rcases hu with hu | hu <;> rw [hu, ha, hs, he] <;> simp
  rw [hall, hoff, hlim]
  simp only [Option.getD_some]
  rw [List.drop_zero]
  have hlen : (db.activityLogs.insertionSort logDescOrder).length
      = db.activityLogs.length := (List.perm_insertionSort _ _).length_eq
  rw [← hlen, List.take_length]
  exact (List.perm_insertionSort _ _).map logRowToWire

/-- C8 counterexample: supplying the username filter with the empty
string does not restrict the result to entries with an empty username —
`if (filter.username)` treats the empty string as falsy, so the filter is
skipped and the sample entry with username "a" is returned. -/
theorem queryAuditLog_empty_username_counterexample :
    ¬ (∀ e ∈ getActivityLogs { username := some "" } sampleLogDb, e.username = "") := by
  decide

/-- C8 (amended): query results are non-increasing in creation time; all
supplied filter predicates are AND-combined, where a supplied non-empty
username filter forces equality of usernames (a supplied empty-string
username filter is treated as absent, being falsy), an action filter
forces the action, and the start/end bounds bound the creation time;
absent predicates impose no restriction (with no filters, offset 0 and a
large enough limit, the result is a permutation of the whole table); and
absent limit/offset behave as the defaults 100 and 0. -/
theorem queryAuditLog_order_filters_defaults :
    (∀ (f : ActivityLogFilter) (db : DB),
      List.Pairwise (fun a b : ActivityLogWire => b.created_at ≤ a.created_at)
        (getActivityLogs f db))
    ∧ (∀ (f : ActivityLogFilter) (db : DB) (u : String), f.username = some u → u ≠ "" →
        ∀ e ∈ getActivityLogs f db, e.username = u)
    ∧ (∀ (f : ActivityLogFilter) (db : DB) (a : ActivityAction), f.action = some a →
        ∀ e ∈ getActivityLogs f db, e.action = a)
    ∧ (∀ (f : ActivityLogFilter) (db : DB) (t : Int), f.start_date = some t →
        ∀ e ∈ getActivityLogs f db, t ≤ e.created_at)
    ∧ (∀ (f : ActivityLogFilter) (db : DB) (t : Int), f.end_date = some t →
        ∀ e ∈ getActivityLogs f db, e.created_at ≤ t)
    ∧ (∀ (f : ActivityLogFilter) (db : DB),
        (f.username = none ∨ f.username = some "") → f.action = none →
        f.start_date = none → f.end_date = none → f.offset = some 0 →
        f.limit = some db.activityLogs.length →
        (getActivityLogs f db).Perm (db.activityLogs.map logRowToWire))
    ∧ (∀ (f : ActivityLogFilter) (db : DB),
        getActivityLogs { f with limit := none, offset := none } db
          = getActivityLogs { f with limit := some 100, offset := some 0 } db) := by
  refine ⟨getActivityLogs_sorted, ?_, ?_, ?_, ?_, getActivityLogs_no_filter_perm, ?_⟩
  · intro f db u hu hne e he
    obtain ⟨log, _, hm, hconv⟩ := getActivityLogs_mem f db e he
    rw [hconv]
    exact (logMatches_components f log hm).1 u hu hne
  · intro f db a ha e he
    obtain ⟨log, _, hm, hconv⟩ := getActivityLogs_mem f db e he
    rw [hconv]
    exact (logMatches_components f log hm).2.1 a ha
  · intro f db t ht e he
    obtain ⟨log, _, hm, hconv⟩ := getActivityLogs_mem f db e he
    rw [hconv]
    exact (logMatches_components f log hm).2.2.1 t ht
  · intro f db t ht e he
    obtain ⟨log, _, hm, hconv⟩ := getActivityLogs_mem f db e he
    rw [hconv]
    exact (logMatches_components f log hm).2.2.2 t ht
  · intro f db
    rfl

/-- Witness for the amended C8 on the one-entry sample log store. -/
theorem queryAuditLog_order_filters_defaults_witness :
    (∀ e ∈ getActivityLogs { username := some "a" } sampleLogDb, e.username = "a")
    ∧ (∀ e ∈ getActivityLogs { action := some .login } sampleLogDb,
        e.action = ActivityAction.login)
    ∧ (∀ e ∈ getActivityLogs { start_date := some 0 } sampleLogDb, (0 : Int) ≤ e.created_at)
    ∧ (∀ e ∈ getActivityLogs { end_date := some 9 } sampleLogDb, e.created_at ≤ (9 : Int))
    ∧ (getActivityLogs { offset := some 0, limit := some 1 } sampleLogDb).Perm
        (sampleLogDb.activityLogs.map logRowToWire)
    ∧ getActivityLogs
        { ({ username := some "a" } : ActivityLogFilter) with limit := none, offset := none }
        sampleLogDb
      = getActivityLogs
        { ({ username := some "a" } : ActivityLogFilter) with
            limit := some 100, offset := some 0 }
        sampleLogDb :=
  ⟨queryAuditLog_order_filters_defaults.2.1 { username := some "a" } sampleLogDb "a"
      rfl (by decide),
   queryAuditLog_order_filters_defaults.2.2.1 { action := some .login } sampleLogDb .login rfl,
   queryAuditLog_order_filters_defaults.2.2.2.1 { start_date := some 0 } sampleLogDb 0 rfl,
   queryAuditLog_order_filters_defaults.2.2.2.2.1 { end_date := some 9 } sampleLogDb 9 rfl,
   queryAuditLog_order_filters_defaults.2.2.2.2.2.1 { offset := some 0, limit := some 1 }
      sampleLogDb (Or.inl rfl) rfl rfl rfl rfl (by decide),
   queryAuditLog_order_filters_defaults.2.2.2.2.2.2 { username := some "a" } sampleLogDb⟩

/-- C9: a profile created with price 29.99 returns price exactly 29.99,
and listing the profiles later returns that profile (same id) with price
exactly 29.99 and the upload/download speeds as the exact integers of the
input: the decimal survives the number-to-string conversion, the
`numeric(10,2)` column and the string-to-number conversion without
drift. -/
theorem createProfile_price_roundtrip :
    ∀ (db : DB) (now : Int) (input : CreateRadiusProfileInput),
      input.price = some ⟨2999, 2⟩ →
      (createRadiusProfile input now db).2.price = some ⟨2999, 2⟩
      ∧ ∃ e ∈ getRadiusProfiles (createRadiusProfile input now db).1,
          e.id = (createRadiusProfile input now db).2.id
          ∧ e.price = some ⟨2999, 2⟩
          ∧ e.upload_speed = input.upload_speed
          ∧ e.download_speed = input.download_speed := by
  intro db now input hp
  have h0 : (((⟨2999, 2⟩ : Dec).num == 0) : Bool) = false := by decide
  have h1 : pgNumeric2 (jsNumToString ⟨2999, 2⟩) = "29.99" := by decide
  have h2 : (("29.99" : String) == "") = false := by decide
  have h3 : parseDec "29.99" = ⟨2999, 2⟩ := by decide
  constructor
  · simp [createRadiusProfile, profileRowToWire, hp, h0, h1, h2, h3]
  · refine ⟨profileRowToWire
      { id := db.nextProfileId, name := input.name, upload_speed := input.upload_speed,
        download_speed := input.download_speed, session_timeout := input.session_timeout,
        idle_timeout := input.idle_timeout, monthly_quota := input.monthly_quota,
        price := some "29.99", description := input.description, created_at := now },
      ?_, ?_, ?_, ?_, ?_⟩
    · unfold getRadiusProfiles
      apply List.mem_map_of_mem
      rw [List.mem_insertionSort]
      simp [createRadiusProfile, hp, h0, h1]
    · simp [createRadiusProfile, profileRowToWire, hp, h0, h1]
    · simp [profileRowToWire, h2, h3]
    · simp [profileRowToWire]
    · simp [profileRowToWire]

/-- Witness for C9: creating a 1024/2048 kbps profile with price 29.99 on
the sample store and listing it back. -/
theorem createProfile_price_roundtrip_witness :
    (createRadiusProfile roundTripInput 7 sampleDb).2.price = some ⟨2999, 2⟩
    ∧ ∃ e ∈ getRadiusProfiles (createRadiusProfile roundTripInput 7 sampleDb).1,
        e.id = (createRadiusProfile roundTripInput 7 sampleDb).2.id
        ∧ e.price = some ⟨2999, 2⟩
        ∧ e.upload_speed = roundTripInput.upload_speed
        ∧ e.download_speed = roundTripInput.download_speed :=
  createProfile_price_roundtrip sampleDb 7 roundTripInput rfl

/-- C10: a profile created with price exactly 0 is persisted and returned
with price null (`input.price ? ... : null` treats 0 as falsy), whereas
updating an existing profile with price 0 persists the numeric zero
("0.00" in the scale-2 column) and returns the number 0 (the stored
string "0" is truthy). -/
theorem price_zero_create_null_update_zero :
    (∀ (db : DB) (now : Int) (input : CreateRadiusProfileInput) (z : Dec),
      input.price = some z → z.num = 0 →
      (createRadiusProfile input now db).2.price = none
      ∧ ∃ row ∈ (createRadiusProfile input now db).1.radiusProfiles,
          row.id = (createRadiusProfile input now db).2.id ∧ row.price = none)
    ∧ (∀ (db : DB) (input : UpdateRadiusProfileInput) (p : RadiusProfileRow)
        (db2 : DB) (w2 : RadiusProfileWire),
      db.radiusProfiles.filter (fun q => q.id == input.id) = [p] →
      input.price = some (some ⟨0, 0⟩) →
      updateRadiusProfile input db = (db2, .ok w2) →
      w2.price = some ⟨0, 0⟩
      ∧ db2.radiusProfiles.filter (fun q => q.id == input.id)
          = [applyRadiusProfileUpdate input p]
      ∧ (applyRadiusProfileUpdate input p).price = some "0.00") := by
  constructor
  · intro db now input z hp hz
    have h0 : (z.num == 0) = true := by
      simp [hz]
    refine ⟨?_, ?_⟩
    · simp [createRadiusProfile, profileRowToWire, hp, h0]
    · refine ⟨
        { id := db.nextProfileId, name := input.name,
          upload_speed := input.upload_speed, download_speed := input.download_speed,
          session_timeout := input.session_timeout, idle_timeout := input.idle_timeout,
          monthly_quota := input.monthly_quota, price := none,
          description := input.description, created_at := now }, ?_, ?_, ?_⟩
      · simp [createRadiusProfile, hp, h0]
      · simp [createRadiusProfile, profileRowToWire, hp, h0]
      · rfl
  · intro db input p db2 w2 hfl hp h
    have hc : pgNumeric2 (jsNumToString ⟨0, 0⟩) = "0.00" := by decide
    have hc2 : (("0.00" : String) == "") = false := by decide
    have hc3 : parseDec "0.00" = (⟨0, 0⟩ : Dec) := by decide
    unfold updateRadiusProfile at h
    rw [hfl] at h
    simp only [] at h
    have hm := filter_singleton_map_ite db.radiusProfiles (fun q => q.id == input.id)
      (applyRadiusProfileUpdate input) (fun x => by simp [applyRadiusProfileUpdate]) p hfl
    rw [hm] at h
    have hw2 : profileRowToWire (applyRadiusProfileUpdate input p) = w2 :=
      Except.ok.inj (congrArg Prod.snd h)
    have hdb2 : db2.radiusProfiles
        = db.radiusProfiles.map
            (fun q => if q.id == input.id then applyRadiusProfileUpdate input q else q) := by
      have hfst := congrArg Prod.fst h
      simp only [] at hfst
      rw [← hfst]
    have hprice : (applyRadiusProfileUpdate input p).price = some "0.00" := by
      simp [applyRadiusProfileUpdate, hp, hc]
    refine ⟨?_, ?_, hprice⟩
    · rw [← hw2]
      simp [profileRowToWire, hprice, hc2, hc3]
    · rw [hdb2, hm]

/-- Witness for C10: creating a profile with price 0 on the sample store,
and updating the sample profile's price to 0. -/
theorem price_zero_create_null_update_zero_witness :
    ((createRadiusProfile { roundTripInput with price := some ⟨0, 0⟩ } 7 sampleDb).2.price
        = none
      ∧ ∃ row ∈ (createRadiusProfile { roundTripInput with price := some ⟨0, 0⟩ } 7
            sampleDb).1.radiusProfiles,
          row.id = (createRadiusProfile { roundTripInput with price := some ⟨0, 0⟩ } 7
            sampleDb).2.id
          ∧ row.price = none)
    ∧ ((profileRowToWire (applyRadiusProfileUpdate
          { id := 1, price := some (some ⟨0, 0⟩) } sampleProfile)).price = some ⟨0, 0⟩
      ∧ (updateRadiusProfile { id := 1, price := some (some ⟨0, 0⟩) } sampleDb).1.radiusProfiles.filter
            (fun q => q.id == (1 : Int))
          = [applyRadiusProfileUpdate { id := 1, price := some (some ⟨0, 0⟩) } sampleProfile]
      ∧ (applyRadiusProfileUpdate { id := 1, price := some (some ⟨0, 0⟩) } sampleProfile).price
          = some "0.00") :=
  ⟨price_zero_create_null_update_zero.1 sampleDb 7
      { roundTripInput with price := some ⟨0, 0⟩ } ⟨0, 0⟩ rfl rfl,
   price_zero_create_null_update_zero.2 sampleDb { id := 1, price := some (some ⟨0, 0⟩) }
      sampleProfile (updateRadiusProfile { id := 1, price := some (some ⟨0, 0⟩) } sampleDb).1
      (profileRowToWire (applyRadiusProfileUpdate
        { id := 1, price := some (some ⟨0, 0⟩) } sampleProfile))
      (by decide) rfl (by decide)⟩

end MikroRadius
